import Mathlib

/-!
Shallow embedding of the startup/configuration layer of the cryo CLI
(`src/main.rs`): datatype token parsing, sort-key resolution, concurrency
resolution, network auto-naming, and the effect order of `main`/`parse_opts`.
Rust `u64` values are modelled as `Nat`; where overflow or division by zero
matters, checked-arithmetic semantics are made explicit (a Rust panic is a
fatal error, modelled as `Except.error`).
-/

namespace Cryo

/-- Wraparound modulus of the Rust `u64` type. -/
def U64_MOD : Nat := 2 ^ 64

/-- Embeds `Datatype` (closed enumeration from the `types` module; its three
variants are fixed by `parse_datatype` in `src/main.rs` lines 132-141). -/
inductive Datatype
  | Blocks
  | Transactions
  | Logs
deriving DecidableEq, Repr

/-- Modelled from the spec: `Datatype::default_sort` lives in the `types`
module, which is absent from the sources. Spec §4.5 gives the canonical row
identity per datatype (blocks: block_number; transactions:
(block_number, transaction_index); logs: (block_number, log_index)). -/
def Datatype.default_sort : Datatype → List String
  | .Blocks => ["block_number"]
  | .Transactions => ["block_number", "transaction_index"]
  | .Logs => ["block_number", "log_index"]

/-- Embeds `parse_datatype` (`src/main.rs` lines 132-141). The Rust `match`
on the token string is an if-chain here; the catch-all panic becomes
`Except.error "invalid datatype"`. -/
def parse_datatype (datatype : String) : Except String Datatype :=
  if datatype = "blocks" then .ok .Blocks
  else if datatype = "logs" then .ok .Logs
  else if datatype = "events" then .ok .Logs
  else if datatype = "transactions" then .ok .Transactions
  else if datatype = "txs" then .ok .Transactions
  else .error "invalid datatype"

/-- The three optional concurrency flags of `Args`
(`src/main.rs` lines 77-87). -/
structure ConcArgs where
  max_concurrent_requests : Option Nat
  max_concurrent_chunks : Option Nat
  max_concurrent_blocks : Option Nat

/-- Embeds `parse_concurrency_args` (`src/main.rs` lines 245-283). The
returned pair is `(max_concurrent_chunks, max_concurrent_blocks)`, as
destructured at the call site on line 189. Rust panics are `Except.error`:
division by zero panics, the checked multiplication in the all-three branch
panics on `u64` overflow, and the `assert` macro panics when the product test
fails. `Nat` division equals Rust `u64` division on in-range operands. -/
def parse_concurrency_args (args : ConcArgs) : Except String (Nat × Nat) :=
  match args.max_concurrent_requests, args.max_concurrent_chunks,
      args.max_concurrent_blocks with
  | none, none, none => .ok (32, 3)
  | some max_concurrent_requests, none, none =>
      .ok (max (max_concurrent_requests / 3) 1, 3)
  | none, some max_concurrent_chunks, none =>
      .ok (max_concurrent_chunks, 3)
  | none, none, some max_concurrent_blocks =>
      if max_concurrent_blocks = 0 then
        .error "attempt to divide by zero"
      else
        .ok (max (100 / max_concurrent_blocks) 1, max_concurrent_blocks)
  | some max_concurrent_requests, some max_concurrent_chunks, none =>
      if max_concurrent_chunks = 0 then
        .error "attempt to divide by zero"
      else
        .ok (max_concurrent_chunks,
          max (max_concurrent_requests / max_concurrent_chunks) 1)
  | none, some max_concurrent_chunks, some max_concurrent_blocks =>
      .ok (max_concurrent_chunks, max_concurrent_blocks)
  | some max_concurrent_requests, none, some max_concurrent_blocks =>
      if max_concurrent_blocks = 0 then
        .error "attempt to divide by zero"
      else
        .ok (max (max_concurrent_requests / max_concurrent_blocks) 1,
          max_concurrent_blocks)
  | some max_concurrent_requests, some max_concurrent_chunks,
      some max_concurrent_blocks =>
      if U64_MOD ≤ max_concurrent_chunks * max_concurrent_blocks then
        .error "attempt to multiply with overflow"
      else if max_concurrent_requests =
          max_concurrent_chunks * max_concurrent_blocks then
        .ok (max_concurrent_chunks, max_concurrent_blocks)
      else
        .error
          "max_concurrent_requests should equal max_concurrent_chunks * max_concurrent_blocks"

/-- Embeds `parse_sort` (`src/main.rs` lines 227-243). The `HashMap` of
schemas is an association list keyed by datatype (the keys are distinct by
construction on line 192); a `Schema` is represented by its ordered column
names, which `parse_sort` itself never inspects. The `unwrap` on an empty
map and the explicit panic both become `Except.error`. -/
def parse_sort (raw_sort : List String)
    (schemas : List (Datatype × List String)) :
    Except String (List (Datatype × List String)) :=
  if raw_sort.length = 0 then
    .ok (schemas.map (fun p => (p.1, p.1.default_sort)))
  else if 1 < schemas.length then
    .error "custom sort not supported for multiple schemas"
  else
    match schemas with
    | [] => .error "called unwrap on a None value"
    | (datatype, _) :: _ => .ok [(datatype, raw_sort)]

/-- Modelled from the spec: the full Blocks schema column list (spec §4.4);
its source, `datatype_utils::get_schema`, is in a module absent from the
sources. Used only as a concrete schema input to `parse_sort`, which never
reads the column names. -/
def blocks_schema_columns : List String :=
  ["block_number", "block_hash", "parent_hash", "timestamp", "author",
   "gas_used", "extra_data", "base_fee_per_gas", "size",
   "transaction_count", "logs_bloom"]

/-- Embeds the chain-id match of `parse_opts` (`src/main.rs` lines 163-166):
`chain_id.as_u64()` on the `U256` chain id panics with
"Integer overflow when casting to u64" when the value exceeds `u64::MAX`
(the uint crate's `as_u64` checks; truncation would be `low_u64`, which the
code does not call); otherwise `1` maps to `"ethereum"` and any other value
to `"network_<chain_id>"` in decimal. -/
def network_name_of_chain_id (chain_id : Nat) : Except String String :=
  if U64_MOD ≤ chain_id then
    .error "Integer overflow when casting to u64"
  else if chain_id = 1 then .ok "ethereum"
  else .ok ("network_" ++ toString chain_id)

/-- Embeds the network-name resolution of `parse_opts` (`src/main.rs` lines
160-169). `chain_id_rpc` is the outcome of the `eth_chainId` call, consulted
only when `--network-name` is absent; `none` is an RPC failure, which
panics (`Except.error`). -/
def resolve_network_name (network_name : Option String)
    (chain_id_rpc : Option Nat) : Except String String :=
  match network_name with
  | some name => .ok name
  | none =>
      match chain_id_rpc with
      | some chain_id => network_name_of_chain_id chain_id
      | none => .error "could not determine chain_id"

/-- Observable effects of the startup path, in program order. RPC calls and
output-file writes after startup happen only inside `freeze::freeze`,
abstracted as the single effect `freezeIngestion`. -/
inductive Effect
  | rpcEthChainId
  | createOutputDir
  | printLine (s : String)
  | freezeIngestion
deriving DecidableEq, Repr

/-- Embeds the effect order of `parse_opts` (`src/main.rs` lines 144-225):
the only RPC issued during startup is `eth_chainId`, and only when
`--network-name` is absent (lines 160-169); `fs::create_dir_all` on the
output directory runs unconditionally (lines 172-176). -/
def parse_opts_effects (network_name : Option String) : List Effect :=
  (match network_name with
    | some _ => []
    | none => [Effect.rpcEthChainId]) ++ [Effect.createOutputDir]

/-- Embeds `main` (`src/main.rs` lines 98-113): parse options, print the
summary, then either print the dry-run notice and exit, or call
`freeze::freeze`. -/
def main_effects (network_name : Option String) (dry : Bool) : List Effect :=
  parse_opts_effects network_name ++ [Effect.printLine "summary"] ++
    (if dry then
      [Effect.printLine "", Effect.printLine "[dry run, exiting]"]
    else
      [Effect.printLine "", Effect.printLine "",
       Effect.printLine "collecting data...", Effect.freezeIngestion,
       Effect.printLine "...done"])

/-- C1 counterexample: with no concurrency flag supplied, the code resolves
to chunks=32 and blocks=3, not to chunks=3 and blocks=32 as claimed. -/
theorem default_concurrency_not_3_32 :
    parse_concurrency_args ⟨none, none, none⟩ = .ok (32, 3) ∧
      parse_concurrency_args ⟨none, none, none⟩ ≠ .ok (3, 32) := by
  refine ⟨rfl, ?_⟩
  simp [parse_concurrency_args]

/-- C1 (amended): when none of the three concurrency flags is supplied,
`parse_concurrency_args` resolves to max_concurrent_chunks = 32 and
max_concurrent_blocks = 3. -/
theorem default_concurrency_resolution :
    parse_concurrency_args ⟨none, none, none⟩ = .ok (32, 3) := rfl

/-- C2 counterexample: with only max_concurrent_requests = 30 supplied, the
code resolves to (chunks = max(30/3, 1) = 10, blocks = 3), not to
(chunks = 3, blocks = max(30/3, 1) = 10) as claimed. -/
theorem only_requests_not_chunks_3 :
    parse_concurrency_args ⟨some 30, none, none⟩ = .ok (10, 3) ∧
      parse_concurrency_args ⟨some 30, none, none⟩ ≠ .ok (3, 10) := by
  refine ⟨rfl, ?_⟩
  simp [parse_concurrency_args]

/-- C2 (amended): when only max_concurrent_requests = R is supplied, the
resolution yields chunks = max(⌊R/3⌋, 1) and blocks = 3. -/
theorem only_requests_resolution (r : Nat) :
    parse_concurrency_args ⟨some r, none, none⟩ = .ok (max (r / 3) 1, 3) :=
  rfl

/-- C3: with all three flags supplied as u64 values, resolution succeeds
with (chunks, blocks) = (C, B) iff R = C·B exactly; otherwise
`parse_concurrency_args` is a fatal error. -/
theorem all_three_requires_product (r c b : Nat) (hr : r < U64_MOD) :
    (parse_concurrency_args ⟨some r, some c, some b⟩ = .ok (c, b) ↔
      r = c * b) ∧
    (r ≠ c * b →
      ∃ e, parse_concurrency_args ⟨some r, some c, some b⟩ = .error e) := by
  simp only [parse_concurrency_args]
  by_cases hof : U64_MOD ≤ c * b
  · have hne : r ≠ c * b := by omega
    simp [hof, hne]
  · by_cases heq : r = c * b
    · simp [hof, heq]
    · simp [hof, heq]

/-- C3 witness at (R, C, B) = (12, 3, 4). -/
theorem all_three_requires_product_witness :
    (12 < U64_MOD) ∧
    ((parse_concurrency_args ⟨some 12, some 3, some 4⟩ = .ok (3, 4) ↔
        12 = 3 * 4) ∧
      (12 ≠ 3 * 4 →
        ∃ e, parse_concurrency_args ⟨some 12, some 3, some 4⟩ = .error e)) :=
  ⟨by norm_num [U64_MOD], all_three_requires_product 12 3 4 (by norm_num [U64_MOD])⟩

/-- C4 counterexample: supplying only max_concurrent_chunks = 0 resolves to
(chunks = 0, blocks = 3), so the resolved max_concurrent_chunks is not ≥ 1
as claimed. -/
theorem chunks_zero_violates_invariant :
    ¬ (∀ c b, parse_concurrency_args ⟨none, some 0, none⟩ = .ok (c, b) →
        1 ≤ c ∧ 1 ≤ b) := by
  intro h
  have := (h 0 3 rfl).1
  omega

/-- C4 (amended): whenever every concurrency flag that is supplied has value
≥ 1, any successful resolution has max_concurrent_chunks ≥ 1 and
max_concurrent_blocks ≥ 1. -/
theorem resolution_positive (a : ConcArgs)
    (hr : ∀ r, a.max_concurrent_requests = some r → 1 ≤ r)
    (hc : ∀ c, a.max_concurrent_chunks = some c → 1 ≤ c)
    (hb : ∀ b, a.max_concurrent_blocks = some b → 1 ≤ b)
    (c b : Nat) (h : parse_concurrency_args a = .ok (c, b)) :
    1 ≤ c ∧ 1 ≤ b := by
  obtain ⟨R, C, B⟩ := a
  simp only at hr hc hb
  match R, C, B with
  | none, none, none =>
      simp only [parse_concurrency_args, Except.ok.injEq, Prod.mk.injEq] at h
      omega
  | some r, none, none =>
      simp only [parse_concurrency_args, Except.ok.injEq, Prod.mk.injEq] at h
      have := le_max_right (r / 3) 1
      omega
  | none, some c', none =>
      have := hc c' rfl
      simp only [parse_concurrency_args, Except.ok.injEq, Prod.mk.injEq] at h
      omega
  | none, none, some b' =>
      have := hb b' rfl
      have hb0 : ¬ b' = 0 := by omega
      simp only [parse_concurrency_args, hb0, if_false, Except.ok.injEq,
        Prod.mk.injEq] at h
      have := le_max_right (100 / b') 1
      omega
  | some r, some c', none =>
      have := hc c' rfl
      have hc0 : ¬ c' = 0 := by omega
      simp only [parse_concurrency_args, hc0, if_false, Except.ok.injEq,
        Prod.mk.injEq] at h
      have := le_max_right (r / c') 1
      omega
  | none, some c', some b' =>
      have := hc c' rfl
      have := hb b' rfl
      simp only [parse_concurrency_args, Except.ok.injEq, Prod.mk.injEq] at h
      omega
  | some r, none, some b' =>
      have := hb b' rfl
      have hb0 : ¬ b' = 0 := by omega
      simp only [parse_concurrency_args, hb0, if_false, Except.ok.injEq,
        Prod.mk.injEq] at h
      have := le_max_right (r / b') 1
      omega
  | some r, some c', some b' =>
      have := hc c' rfl
      have := hb b' rfl
      simp only [parse_concurrency_args] at h
      split at h
      · exact absurd h (by simp)
      · split at h
        · simp only [Except.ok.injEq, Prod.mk.injEq] at h
          omega
        · exact absurd h (by simp)

/-- C4 witness at (R, C, B) = (some 6, some 2, some 3). -/
theorem resolution_positive_witness :
    parse_concurrency_args ⟨some 6, some 2, some 3⟩ = .ok (2, 3) ∧
      1 ≤ 2 ∧ 1 ≤ 3 := by
  refine ⟨by rfl, ?_⟩
  exact resolution_positive ⟨some 6, some 2, some 3⟩
    (fun r h => by simp_all; omega) (fun c h => by simp_all; omega)
    (fun b h => by simp_all; omega)
    2 3 (by rfl)

/-- C5: the five partially-specified concurrency cases, for supplied values
C ≥ 1 and B ≥ 1: only C → (C, 3); only B → (max(⌊100/B⌋, 1), B);
R and C → (C, max(⌊R/C⌋, 1)); C and B → (C, B);
R and B → (max(⌊R/B⌋, 1), B). -/
theorem partial_concurrency_cases (r c b : Nat) (hc : 1 ≤ c) (hb : 1 ≤ b) :
    parse_concurrency_args ⟨none, some c, none⟩ = .ok (c, 3) ∧
    parse_concurrency_args ⟨none, none, some b⟩ =
      .ok (max (100 / b) 1, b) ∧
    parse_concurrency_args ⟨some r, some c, none⟩ =
      .ok (c, max (r / c) 1) ∧
    parse_concurrency_args ⟨none, some c, some b⟩ = .ok (c, b) ∧
    parse_concurrency_args ⟨some r, none, some b⟩ =
      .ok (max (r / b) 1, b) := by
  have hc0 : ¬ c = 0 := by omega
  have hb0 : ¬ b = 0 := by omega
  refine ⟨rfl, ?_, ?_, rfl, ?_⟩ <;>
    simp [parse_concurrency_args, hc0, hb0]

/-- C5 witness at (R, C, B) = (10, 2, 4). -/
theorem partial_concurrency_cases_witness :
    (1 ≤ 2 ∧ 1 ≤ 4) ∧
    (parse_concurrency_args ⟨none, some 2, none⟩ = .ok (2, 3) ∧
      parse_concurrency_args ⟨none, none, some 4⟩ = .ok (25, 4) ∧
      parse_concurrency_args ⟨some 10, some 2, none⟩ = .ok (2, 5) ∧
      parse_concurrency_args ⟨none, some 2, some 4⟩ = .ok (2, 4) ∧
      parse_concurrency_args ⟨some 10, none, some 4⟩ = .ok (2, 4)) := by
  refine ⟨by omega, ?_⟩
  have h := partial_concurrency_cases 10 2 4 (by omega) (by omega)
  simpa using h

/-- C6 counterexample: `parse_sort` accepts a custom sort column that does
not exist in the datatype's schema — there is no startup validation of sort
columns. With one Blocks schema and the sort list ["nonexistent_column"],
`parse_sort` succeeds and attaches the unknown column verbatim. -/
theorem sort_unknown_column_accepted :
    parse_sort ["nonexistent_column"]
        [(Datatype.Blocks, blocks_schema_columns)] =
      .ok [(Datatype.Blocks, ["nonexistent_column"])] ∧
    "nonexistent_column" ∉ blocks_schema_columns := by
  refine ⟨rfl, ?_⟩
  decide

/-- C6 (amended): `parse_sort` performs no validation of sort-key columns
against the schema: with exactly one schema, a non-empty custom sort list is
accepted and attached verbatim even when some of its columns are unknown to
that schema. -/
theorem sort_columns_not_validated (raw_sort : List String) (d : Datatype)
    (cols : List String) (hne : raw_sort ≠ [])
    (_hunknown : ∃ s ∈ raw_sort, s ∉ cols) :
    parse_sort raw_sort [(d, cols)] = .ok [(d, raw_sort)] := by
  have hlen : ¬ raw_sort.length = 0 := by
    simpa [List.length_eq_zero] using hne
  simp [parse_sort, hlen]

/-- C6 witness: sort list ["foo"] against a one-column Blocks schema. -/
theorem sort_columns_not_validated_witness :
    ((["foo"] : List String) ≠ [] ∧
      ∃ s ∈ (["foo"] : List String), s ∉ (["block_number"] : List String)) ∧
    parse_sort ["foo"] [(Datatype.Blocks, ["block_number"])] =
      .ok [(Datatype.Blocks, ["foo"])] :=
  ⟨⟨by decide, by decide⟩,
    sort_columns_not_validated ["foo"] Datatype.Blocks ["block_number"]
      (by decide) (by decide)⟩

/-- C7: exactly the five tokens blocks, logs, events, transactions, txs are
accepted, with events → Logs and txs → Transactions; every other token is an
invalid-datatype fatal error. -/
theorem datatype_token_parsing (s : String)
    (h : s ≠ "blocks" ∧ s ≠ "logs" ∧ s ≠ "events" ∧ s ≠ "transactions" ∧
      s ≠ "txs") :
    parse_datatype "blocks" = .ok .Blocks ∧
    parse_datatype "logs" = .ok .Logs ∧
    parse_datatype "events" = .ok .Logs ∧
    parse_datatype "transactions" = .ok .Transactions ∧
    parse_datatype "txs" = .ok .Transactions ∧
    parse_datatype s = .error "invalid datatype" := by
  obtain ⟨h1, h2, h3, h4, h5⟩ := h
  refine ⟨rfl, rfl, rfl, rfl, rfl, ?_⟩
  simp [parse_datatype, h1, h2, h3, h4, h5]

/-- C7 witness: the token "receipts" is rejected. -/
theorem datatype_token_parsing_witness :
    ("receipts" ≠ "blocks" ∧ "receipts" ≠ "logs" ∧ "receipts" ≠ "events" ∧
      "receipts" ≠ "transactions" ∧ "receipts" ≠ "txs") ∧
    (parse_datatype "blocks" = .ok .Blocks ∧
      parse_datatype "logs" = .ok .Logs ∧
      parse_datatype "events" = .ok .Logs ∧
      parse_datatype "transactions" = .ok .Transactions ∧
      parse_datatype "txs" = .ok .Transactions ∧
      parse_datatype "receipts" = .error "invalid datatype") :=
  ⟨by decide, datatype_token_parsing "receipts" (by decide)⟩

/-- C8 counterexample: at the chain id 2^64 = 18446744073709551616 (a valid
`eth_chainId` value, the RPC returns a U256) the program panics in
`as_u64` instead of setting the network name to "network_<chain_id>" as the
claim's "otherwise" clause states. -/
theorem chain_id_overflow_panics :
    resolve_network_name none (some 18446744073709551616) =
      .error "Integer overflow when casting to u64" ∧
    resolve_network_name none (some 18446744073709551616) ≠
      .ok ("network_" ++ toString 18446744073709551616) := by
  refine ⟨rfl, ?_⟩
  simp [resolve_network_name, network_name_of_chain_id, U64_MOD]

/-- C8 (amended): with --network-name absent, startup issues exactly one
eth_chainId call and names the network "ethereum" when the chain id is 1 and
"network_<chain_id>" for any other chain id below 2^64 (a chain id at or
above 2^64 aborts with a cast panic); with --network-name supplied, the name
is used verbatim and no pre-ingestion RPC call is made. -/
theorem network_auto_naming (chain_id : Nat) (hcid : chain_id < U64_MOD)
    (nm : String) (dry : Bool) :
    resolve_network_name none (some chain_id) =
      .ok (if chain_id = 1 then "ethereum"
        else "network_" ++ toString chain_id) ∧
    (main_effects none dry).count Effect.rpcEthChainId = 1 ∧
    resolve_network_name (some nm) (some chain_id) = .ok nm ∧
    (main_effects (some nm) dry).count Effect.rpcEthChainId = 0 := by
  have hof : ¬ U64_MOD ≤ chain_id := by omega
  refine ⟨?_, ?_, rfl, ?_⟩
  · have h2 : (1 : Nat) < U64_MOD := by norm_num [U64_MOD]
    by_cases h1 : chain_id = 1 <;>
      simp [resolve_network_name, network_name_of_chain_id, hof, h1, h2]
  · cases dry <;> simp [main_effects, parse_opts_effects]
  · cases dry <;> simp [main_effects, parse_opts_effects]

/-- C8 witness at chain id 5 and at the supplied name "mainnet". -/
theorem network_auto_naming_witness :
    (5 < U64_MOD) ∧
    (resolve_network_name none (some 5) = .ok "network_5" ∧
      (main_effects none false).count Effect.rpcEthChainId = 1 ∧
      resolve_network_name (some "mainnet") (some 5) = .ok "mainnet" ∧
      (main_effects (some "mainnet") false).count Effect.rpcEthChainId = 0) :=
  ⟨by norm_num [U64_MOD], by
    simpa using network_auto_naming 5 (by norm_num [U64_MOD]) "mainnet" false⟩

/-- C9: on a dry run, the summary is printed, `freeze::freeze` is never
invoked (so no ingestion RPC calls are issued and no output files are
written), and the only possible RPC effect is the single eth_chainId call,
present exactly when --network-name is absent. -/
theorem dry_run_no_ingestion (network_name : Option String) :
    Effect.printLine "summary" ∈ main_effects network_name true ∧
    Effect.freezeIngestion ∉ main_effects network_name true ∧
    (main_effects network_name true).count Effect.rpcEthChainId =
      (if network_name = none then 1 else 0) := by
  cases network_name <;>
    simp [main_effects, parse_opts_effects]

/-- C10: a non-empty custom sort list with more than one schema fails
fatally with "custom sort not supported for multiple schemas"; with exactly
one schema it succeeds and the sort list is attached to that datatype
verbatim. -/
theorem custom_sort_multiple_schemas (raw_sort : List String)
    (schemas : List (Datatype × List String)) (hne : raw_sort ≠ []) :
    (1 < schemas.length →
      parse_sort raw_sort schemas =
        .error "custom sort not supported for multiple schemas") ∧
    (∀ d cols, schemas = [(d, cols)] →
      parse_sort raw_sort schemas = .ok [(d, raw_sort)]) := by
  have hlen : ¬ raw_sort.length = 0 := by
    simpa [List.length_eq_zero] using hne
  constructor
  · intro hmany
    simp [parse_sort, hlen, hmany]
  · intro d cols hs
    subst hs
    simp [parse_sort, hlen]

/-- C10 witness: sort ["value"] fails with two schemas and succeeds,
attached verbatim, with one. -/
theorem custom_sort_multiple_schemas_witness :
    ((["value"] : List String) ≠ [] ∧
      1 < ([(Datatype.Blocks, blocks_schema_columns),
        (Datatype.Logs, blocks_schema_columns)] :
          List (Datatype × List String)).length) ∧
    parse_sort ["value"]
        [(Datatype.Blocks, blocks_schema_columns),
         (Datatype.Logs, blocks_schema_columns)] =
      .error "custom sort not supported for multiple schemas" ∧
    parse_sort ["value"] [(Datatype.Transactions, blocks_schema_columns)] =
      .ok [(Datatype.Transactions, ["value"])] := by
  refine ⟨⟨by decide, by decide⟩, ?_, ?_⟩
  · exact (custom_sort_multiple_schemas ["value"]
      [(Datatype.Blocks, blocks_schema_columns),
       (Datatype.Logs, blocks_schema_columns)] (by decide)).1 (by decide)
  · exact (custom_sort_multiple_schemas ["value"]
      [(Datatype.Transactions, blocks_schema_columns)] (by decide)).2
      Datatype.Transactions blocks_schema_columns rfl

end Cryo
